import Mathlib

/-!
Shallow embedding of the FBX loading pipeline of the
babylonjs-editor-quixel-plugin repository, covering the binary FBX
node-tree parser (src/fbx/loader.ts) and the geometry reconstructor
(src/fbx/geometry.ts), together with theorems settling the
specification claims about them.

Modelling conventions:
* a JavaScript number slot read from an array is `Option Rat`, with
  `none` standing for `undefined` (out-of-range reads);
* the weakly typed node objects built by the parser are modelled by the
  `JSValue` inductive below, an object being its field list in
  insertion order (JS own-property order for string keys);
* loops are rendered as folds over the exact iteration sequence of the
  source loop.
-/

namespace FBXPlugin

/-! ### JS number slots and array reads -/

/-- A JavaScript number slot: `none` models `undefined`. -/
abbrev JSNum := Option ℚ

/-- Models the JS array read `b[i]` on an array of numbers: `undefined`
when `i` is negative or out of range. -/
def jsGetQ (b : List ℚ) (i : Int) : JSNum :=
  if h : 0 ≤ i ∧ i.toNat < b.length then some (b.get ⟨i.toNat, h.2⟩) else none

/-- Models the JS array read `b[i]` on an array of integers (the index
buffers of layer elements). -/
def jsGetI (b : List Int) (i : Int) : Option Int :=
  if h : 0 ≤ i ∧ i.toNat < b.length then some (b.get ⟨i.toNat, h.2⟩) else none

/-- Models the JS array read `b[k]` (with a nonnegative counter `k`) on an
accumulator array whose slots may themselves hold `undefined`. -/
def jsGetN (b : List JSNum) (k : Nat) : JSNum :=
  b.getD k none

/-! ### Embedding of src/fbx/geometry.ts -/

/-- Embeds the interface `IFBXParsedData` of geometry.ts (the output of
the layer-element parse helpers). -/
structure IFBXParsedData where
  dataSize : Nat
  buffer : List ℚ
  indices : List Int
  mappingType : String
  referenceType : String

/-- Embeds the loop body of `FBXGeometry._slice`: starting at read
position `i`, copy `n` further slots (`a[j] = b[i]`). -/
def sliceLoop (b : List ℚ) (i : Int) : Nat → List JSNum
  | 0 => []
  | n + 1 => jsGetQ b i :: sliceLoop b (i + 1) n

/-- Embeds `FBXGeometry._slice(b, from, to)`: the source `for` loop runs
`to - from` times (never, when `from >= to`), copying `b[from..to-1]`. -/
def slice (b : List ℚ) (f t : Int) : List JSNum :=
  sliceLoop b f (t - f).toNat

/-- Embeds `FBXGeometry._getData`.  The source initializes
`index = polygonVertexIndex` and the `switch` reassigns it per mapping
type, the `default` branch leaving the initial value; with reference type
`IndexToDirect` the index is replaced by `indices[index]`.  An
out-of-range replacement read yields `undefined` in JS, and slicing from
an `undefined`-derived bound (`NaN`) runs zero loop iterations, so those
paths return the empty array. -/
def getData (polygonVertexIndex polygonIndex vertexIndex : Int)
    (info : IFBXParsedData) : List JSNum :=
  -- the `switch` compares the scrutinee against each case label in turn
  let index : Option Int :=
    if info.mappingType = "ByPolygonVertex" then some polygonVertexIndex
    else if info.mappingType = "ByPolygon" then some polygonIndex
    else if info.mappingType = "ByVertice" then some vertexIndex
    else if info.mappingType = "AllSame" then jsGetI info.indices 0
    else some polygonVertexIndex
  let index2 : Option Int :=
    if info.referenceType = "IndexToDirect" then
      match index with
      | some i => jsGetI info.indices i
      | none => none
    else index
  match index2 with
  | some i => slice info.buffer (i * (info.dataSize : Int))
      (i * (info.dataSize : Int) + (info.dataSize : Int))
  | none => []

/-- Embeds the interface `IFBXBuffers` of geometry.ts. -/
structure IFBXBuffers where
  uvs : List JSNum
  index : List Nat
  vertex : List JSNum
  colors : List JSNum
  normal : List JSNum

/-- Embeds the interface `IFBXGeometryInformations` of geometry.ts. -/
structure IFBXGeometryInformations where
  vertexPositions : List ℚ
  vertexIndices : List Int
  normal : Option IFBXParsedData
  uv : Option IFBXParsedData
  colors : Option IFBXParsedData

/-- Models the double JS read `vertexPositions[facePositionIndexes[k]]`
performed by `_genFace`. -/
def faceVertexAt (vertexPositions : List ℚ) (facePositionIndexes : List Int)
    (k : Nat) : JSNum :=
  match jsGetI facePositionIndexes (k : Int) with
  | some j => jsGetQ vertexPositions j
  | none => none

/-- Embeds one iteration of the `for (i = 2; i < faceLength; i++)` loop
body of `FBXGeometry._genFace` at loop counter `i`, pushing one triangle
into the buffers.  The push order is copied literally from the source:
positions and normals push, per triangle, corner 0 then corner `i - 1`
then corner `i`, each with its three components in source order first,
third, second; uvs push corners 0, `i - 1`, `i` with components in
order; colors push corners 0, `i - 1`, `i` reading the per-corner
accumulator at stride 3 (`(i - 1) * 3`, `i * 3`) although it was filled
four slots per corner; the index buffer pushes its own current length
three times (so each push sees the length grown by the previous one). -/
def genFaceStep (geoInfo : IFBXGeometryInformations)
    (facePositionIndexes : List Int)
    (faceNormals faceUVs faceColors : List JSNum)
    (buffers : IFBXBuffers) (i : Nat) : IFBXBuffers :=
  let fv := faceVertexAt geoInfo.vertexPositions facePositionIndexes
  let vertex := buffers.vertex ++
    [fv 0, fv 2, fv 1,
     fv ((i - 1) * 3), fv ((i - 1) * 3 + 2), fv ((i - 1) * 3 + 1),
     fv (i * 3), fv (i * 3 + 2), fv (i * 3 + 1)]
  let colors :=
    match geoInfo.colors with
    | some _ => buffers.colors ++
      [jsGetN faceColors 0, jsGetN faceColors 1,
       jsGetN faceColors 2, jsGetN faceColors 3,
       jsGetN faceColors ((i - 1) * 3), jsGetN faceColors ((i - 1) * 3 + 1),
       jsGetN faceColors ((i - 1) * 3 + 2), jsGetN faceColors ((i - 1) * 3 + 3),
       jsGetN faceColors (i * 3), jsGetN faceColors (i * 3 + 1),
       jsGetN faceColors (i * 3 + 2), jsGetN faceColors (i * 3 + 3)]
    | none => buffers.colors
  let n := buffers.index.length
  let index := buffers.index ++ [n, n + 1, n + 2]
  let normal :=
    match geoInfo.normal with
    | some _ => buffers.normal ++
      [jsGetN faceNormals 0, jsGetN faceNormals 2, jsGetN faceNormals 1,
       jsGetN faceNormals ((i - 1) * 3), jsGetN faceNormals ((i - 1) * 3 + 2),
       jsGetN faceNormals ((i - 1) * 3 + 1),
       jsGetN faceNormals (i * 3), jsGetN faceNormals (i * 3 + 2),
       jsGetN faceNormals (i * 3 + 1)]
    | none => buffers.normal
  let uvs :=
    match geoInfo.uv with
    | some _ => buffers.uvs ++
      [jsGetN faceUVs 0, jsGetN faceUVs 1,
       jsGetN faceUVs ((i - 1) * 2), jsGetN faceUVs ((i - 1) * 2 + 1),
       jsGetN faceUVs (i * 2), jsGetN faceUVs (i * 2 + 1)]
    | none => buffers.uvs
  { uvs := uvs, index := index, vertex := vertex, colors := colors,
    normal := normal }

/-- Embeds `FBXGeometry._genFace`: the `for (i = 2; i < faceLength; i++)`
loop, rendered as a left fold of the loop body over the iteration
sequence `[2, ..., faceLength - 1]` (empty when `faceLength < 3`). -/
def genFace (buffers : IFBXBuffers) (geoInfo : IFBXGeometryInformations)
    (facePositionIndexes : List Int)
    (faceNormals faceUVs faceColors : List JSNum)
    (faceLength : Nat) : IFBXBuffers :=
  (List.range' 2 (faceLength - 2)).foldl
    (genFaceStep geoInfo facePositionIndexes faceNormals faceUVs faceColors)
    buffers

/-- Per-callback state of the `vertexIndices.forEach` loop of
`FBXGeometry._genBuffers`: the output buffers plus the mutable locals of
the enclosing function. -/
structure GenBuffersState where
  buffers : IFBXBuffers
  polygonIndex : Nat
  faceLength : Nat
  faceUVs : List JSNum
  faceColors : List JSNum
  faceNormals : List JSNum
  facePositionIndexes : List Int

/-- Embeds the `forEach` callback body of `FBXGeometry._genBuffers`, at
array position `polygonVertexIndex` with element `vertexIndexRaw`.  A
negative element marks the end of a face; it is decoded by
`vertexIndex ^ -1`, which the source comments note equals
`(x * -1) - 1`. -/
def genBuffersStep (geoInfo : IFBXGeometryInformations)
    (st : GenBuffersState) (polygonVertexIndex : Nat)
    (vertexIndexRaw : Int) : GenBuffersState :=
  let endOfFace := vertexIndexRaw < 0
  let vertexIndex : Int :=
    if vertexIndexRaw < 0 then -vertexIndexRaw - 1 else vertexIndexRaw
  let facePositionIndexes := st.facePositionIndexes ++
    [vertexIndex * 3, vertexIndex * 3 + 1, vertexIndex * 3 + 2]
  let faceNormals :=
    match geoInfo.normal with
    | some info =>
      let data := getData (polygonVertexIndex : Int) (st.polygonIndex : Int)
        vertexIndex info
      st.faceNormals ++ [jsGetN data 0, jsGetN data 1, jsGetN data 2]
    | none => st.faceNormals
  let faceUVs :=
    match geoInfo.uv with
    | some info =>
      let data := getData (polygonVertexIndex : Int) (st.polygonIndex : Int)
        vertexIndex info
      st.faceUVs ++ [jsGetN data 0, jsGetN data 1]
    | none => st.faceUVs
  let faceColors :=
    match geoInfo.colors with
    | some info =>
      let data := getData (polygonVertexIndex : Int) (st.polygonIndex : Int)
        vertexIndex info
      -- the fourth component is `data[3] ?? 1.0`
      st.faceColors ++ [jsGetN data 0, jsGetN data 1, jsGetN data 2,
        some ((jsGetN data 3).getD 1)]
    | none => st.faceColors
  let faceLength := st.faceLength + 1
  if endOfFace then
    { buffers := genFace st.buffers geoInfo facePositionIndexes faceNormals
        faceUVs faceColors faceLength
      polygonIndex := st.polygonIndex + 1
      faceLength := 0
      faceUVs := []
      faceColors := []
      faceNormals := []
      facePositionIndexes := [] }
  else
    { buffers := st.buffers
      polygonIndex := st.polygonIndex
      faceLength := faceLength
      faceUVs := faceUVs
      faceColors := faceColors
      faceNormals := faceNormals
      facePositionIndexes := facePositionIndexes }

/-- The initial (all-empty) buffers of `_genBuffers`. -/
def initBuffers : IFBXBuffers :=
  { uvs := [], index := [], vertex := [], colors := [], normal := [] }

/-- The initial fold state of `_genBuffers`. -/
def initGenBuffersState : GenBuffersState :=
  { buffers := initBuffers, polygonIndex := 0, faceLength := 0,
    faceUVs := [], faceColors := [], faceNormals := [],
    facePositionIndexes := [] }

/-- Embeds `FBXGeometry._genBuffers`: a fold of the callback body over
`vertexIndices` paired with the running array position. -/
def genBuffers (geoInfo : IFBXGeometryInformations) : IFBXBuffers :=
  (geoInfo.vertexIndices.enum.foldl
    (fun st p => genBuffersStep geoInfo st p.1 p.2)
    initGenBuffersState).buffers

/-- Models the fields of a `LayerElementNormal`, `LayerElementUV` or
`LayerElementColor` node that the parse helpers of geometry.ts read.
The field `a` is the data array of the `Normals`, `UV` or `Colors`
child, and the four optional index fields model the `.a` arrays of the
`NormalIndex`, `NormalsIndex`, `UVIndex` and `ColorIndex` children
(`none` when the child is missing). -/
structure LayerElementNode where
  mappingInformationType : String
  referenceInformationType : String
  a : List ℚ
  normalIndex : Option (List Int)
  normalsIndex : Option (List Int)
  uvIndex : Option (List Int)
  colorIndex : Option (List Int)

/-- Embeds `FBXGeometry._parseNormals`: `indexBuffer` stays empty unless
the reference type is `IndexToDirect`, in which case it is taken from a
`NormalIndex` child, else from a `NormalsIndex` child. -/
def parseNormals : Option LayerElementNode → Option IFBXParsedData
  | none => none
  | some n => some
    { dataSize := 3
      buffer := n.a
      indices :=
        if n.referenceInformationType = "IndexToDirect" then
          match n.normalIndex with
          | some ib => ib
          | none =>
            match n.normalsIndex with
            | some ib => ib
            | none => []
        else []
      mappingType := n.mappingInformationType
      referenceType := n.referenceInformationType }

/-- Models `FBXGeometry._parseUVs` restricted to its non-throwing
domain.  With reference type `IndexToDirect` the source reads
`uvNode.UVIndex.a` unconditionally, which THROWS a TypeError when the
`UVIndex` child is missing; this total variant maps that input to an
empty index buffer instead (an over-approximation of the reachable
inputs, used only where the per-record shape is at stake), while
`parseUVsE` below embeds the error behavior faithfully. -/
def parseUVs : Option LayerElementNode → Option IFBXParsedData
  | none => none
  | some n => some
    { dataSize := 2
      buffer := n.a
      indices :=
        if n.referenceInformationType = "IndexToDirect" then
          n.uvIndex.getD []
        else []
      mappingType := n.mappingInformationType
      referenceType := n.referenceInformationType }

/-- Models `FBXGeometry._parseColors` restricted to its non-throwing
domain, analogous to `parseUVs` with the `ColorIndex` child and data
size 4 (the source reads `colorNode.ColorIndex.a` unconditionally under
`IndexToDirect`, throwing when `ColorIndex` is missing; `parseColorsE`
below embeds that error behavior faithfully). -/
def parseColors : Option LayerElementNode → Option IFBXParsedData
  | none => none
  | some n => some
    { dataSize := 4
      buffer := n.a
      indices :=
        if n.referenceInformationType = "IndexToDirect" then
          n.colorIndex.getD []
        else []
      mappingType := n.mappingInformationType
      referenceType := n.referenceInformationType }

/-- Embeds `FBXGeometry._parseUVs` with its error behavior explicit:
with reference type `IndexToDirect` the source reads `uvNode.UVIndex.a`
unconditionally (geometry.ts line 267), so a missing `UVIndex` child
throws a TypeError; every other input returns the parsed data of
`parseUVs`. -/
def parseUVsE : Option LayerElementNode →
    Except String (Option IFBXParsedData)
  | none => Except.ok none
  | some n =>
    if n.referenceInformationType = "IndexToDirect" then
      match n.uvIndex with
      | some ib => Except.ok (some
        { dataSize := 2
          buffer := n.a
          indices := ib
          mappingType := n.mappingInformationType
          referenceType := n.referenceInformationType })
      | none =>
        Except.error "TypeError: Cannot read properties of undefined"
    else
      Except.ok (some
        { dataSize := 2
          buffer := n.a
          indices := []
          mappingType := n.mappingInformationType
          referenceType := n.referenceInformationType })

/-- Embeds `FBXGeometry._parseColors` with its error behavior explicit:
with reference type `IndexToDirect` the source reads
`colorNode.ColorIndex.a` unconditionally (geometry.ts line 291), so a
missing `ColorIndex` child throws a TypeError. -/
def parseColorsE : Option LayerElementNode →
    Except String (Option IFBXParsedData)
  | none => Except.ok none
  | some n =>
    if n.referenceInformationType = "IndexToDirect" then
      match n.colorIndex with
      | some ib => Except.ok (some
        { dataSize := 4
          buffer := n.a
          indices := ib
          mappingType := n.mappingInformationType
          referenceType := n.referenceInformationType })
      | none =>
        Except.error "TypeError: Cannot read properties of undefined"
    else
      Except.ok (some
        { dataSize := 4
          buffer := n.a
          indices := []
          mappingType := n.mappingInformationType
          referenceType := n.referenceInformationType })

/-- Models the fields of a `Geometry` node that `_genGeomeetry` reads:
`vertices` and `polygonVertexIndex` are the `.a` arrays of the
`Vertices` and `PolygonVertexIndex` children, `none` when the child is
missing (the source reads them as `geoNode.Vertices?.a ?? []`). -/
structure GeometryNode where
  vertices : Option (List ℚ)
  polygonVertexIndex : Option (List Int)
  layerElementUV : Option LayerElementNode
  layerElementColor : Option LayerElementNode
  layerElementNormal : Option LayerElementNode

/-- Embeds the interface `IFBXGeometry` of types.ts: the flat-buffer
record emitted per geometry node. -/
structure IFBXGeometry where
  positions : List JSNum
  indices : List Nat
  normals : List JSNum
  uvs : List JSNum
  colors : List JSNum

/-- Embeds the `geo` record construction opening
`FBXGeometry._genGeomeetry`: the geometry informations drawn from the
node fields. -/
def geometryInformationsOf (geoNode : GeometryNode) :
    IFBXGeometryInformations :=
  { vertexPositions := geoNode.vertices.getD []
    vertexIndices := geoNode.polygonVertexIndex.getD []
    normal := parseNormals geoNode.layerElementNormal
    uv := parseUVs geoNode.layerElementUV
    colors := parseColors geoNode.layerElementColor }

/-- Embeds `FBXGeometry._genGeomeetry` (name as in the source): builds
the geometry informations from the node fields and packages the
generated buffers as the output record. -/
def genGeomeetry (geoNode : GeometryNode) : IFBXGeometry :=
  let buffers := genBuffers (geometryInformationsOf geoNode)
  { uvs := buffers.uvs
    indices := buffers.index
    colors := buffers.colors
    normals := buffers.normal
    positions := buffers.vertex }

/-- Embeds `FBXGeometry._genGeomeetry` with the error behavior of its
layer parse helpers explicit: the `geo` record initializer evaluates
`_parseUVs` before `_parseColors` (source field order), so a TypeError
thrown by either propagates out of the reconstructor, the UV one first;
on the non-throwing domain the result is the record of `genGeomeetry`. -/
def genGeomeetryE (geoNode : GeometryNode) : Except String IFBXGeometry := do
  let uv ← parseUVsE geoNode.layerElementUV
  let colors ← parseColorsE geoNode.layerElementColor
  let geo : IFBXGeometryInformations :=
    { vertexPositions := geoNode.vertices.getD []
      vertexIndices := geoNode.polygonVertexIndex.getD []
      normal := parseNormals geoNode.layerElementNormal
      uv := uv
      colors := colors }
  let buffers := genBuffers geo
  return { uvs := buffers.uvs
           indices := buffers.index
           colors := buffers.colors
           normals := buffers.normal
           positions := buffers.vertex }

/-! ### Embedding of src/fbx/loader.ts -/

/-- Models a JavaScript value as manipulated by `FBXLoader`: `undef`
models `undefined`; an object is its field list in insertion order. -/
inductive JSValue where
  | undef : JSValue
  | bool : Bool → JSValue
  | num : ℚ → JSValue
  | str : String → JSValue
  | arr : List JSValue → JSValue
  | obj : List (String × JSValue) → JSValue

/-- Looks a key up in an object field list (first match). -/
def lookupField : List (String × JSValue) → String → JSValue
  | [], _ => JSValue.undef
  | (k, v) :: rest, key => if k = key then v else lookupField rest key

/-- Models the JS property read `v[key]` for the values the parser
builds; property reads on primitives yield `undefined` here (reads on
`undefined` itself, which throw in JS, go through `getFieldOrThrow`). -/
def getField : JSValue → String → JSValue
  | JSValue.obj fields, key => lookupField fields key
  | _, _ => JSValue.undef

/-- Replaces an existing key in a field list, else appends (JS preserves
insertion order on property writes). -/
def setFields : List (String × JSValue) → String → JSValue →
    List (String × JSValue)
  | [], key, value => [(key, value)]
  | (k, v) :: rest, key, value =>
    if k = key then (k, value) :: rest else (k, v) :: setFields rest key value

/-- Models the JS property write `v[key] = value`; writes on primitives
are silently dropped (sloppy-mode JS) and are unreached on the verified
paths anyway. -/
def setField : JSValue → String → JSValue → JSValue
  | JSValue.obj fields, key, value => JSValue.obj (setFields fields key value)
  | v, _, _ => v

/-- Models JS truthiness of the values above (`NaN` never arises on the
embedded paths). -/
def truthy : JSValue → Bool
  | JSValue.undef => false
  | JSValue.bool b => b
  | JSValue.num q => decide (q ≠ 0)
  | JSValue.str s => decide (s ≠ "")
  | JSValue.arr _ => true
  | JSValue.obj _ => true

/-- Models the JS string conversion used for computed property keys
(`node[x]`); on the embedded paths `x` is a string id or `undefined`,
the remaining cases being unreachable approximations. -/
def jsKeyOf : JSValue → String
  | JSValue.str s => s
  | JSValue.undef => "undefined"
  | JSValue.bool b => if b then "true" else "false"
  | JSValue.num q => toString q
  | JSValue.arr _ => ""
  | JSValue.obj _ => "[object Object]"

/-- Tests `v === s` for a string literal `s` (JS strict equality). -/
def isStrV (v : JSValue) (s : String) : Bool :=
  match v with
  | JSValue.str t => t == s
  | _ => false

/-- Tests `v === true` (JS strict equality against the boolean). -/
def isTrueV : JSValue → Bool
  | JSValue.bool true => true
  | _ => false

/-- Tests `v === undefined`. -/
def isUndefV : JSValue → Bool
  | JSValue.undef => true
  | _ => false

/-- Tests `typeof v === "number"`. -/
def isNumV : JSValue → Bool
  | JSValue.num _ => true
  | _ => false

/-- Tests `Array.isArray(v)`. -/
def isArrV : JSValue → Bool
  | JSValue.arr _ => true
  | _ => false

/-- Extracts the underlying string of a string value (the embedded
branches only apply it to strings). -/
def asString : JSValue → String
  | JSValue.str s => s
  | _ => ""

/-- Extracts the element list of an array value (`propertyList` is
always an array when read). -/
def asList : JSValue → List JSValue
  | JSValue.arr l => l
  | _ => []

/-- Embeds the `Lcl ` prefix rewriting of the `Properties70`/`P` branch:
`if (x.indexOf("Lcl ") === 0) x = x.replace("Lcl ", "Lcl_")` (the
replacement site is the guarded leading occurrence). -/
def lclFix (s : String) : String :=
  if s.startsWith "Lcl " then "Lcl_" ++ (s.drop 4) else s

/-- Embeds `FBXLoader._parseSubNode(name, node, subNode)`, returning the
updated parent `node` (the source mutates it in place).  The branch
chain is kept in source order: single-property collapsing; `Connections`
`C` lists; `Properties70` key copying; `Properties70`/`P` records;
first write under a fresh child name; repeated child names. -/
def parseSubNode (name : String) (node subNode : JSValue) : JSValue :=
  let subNameV := getField subNode "name"
  let subName := jsKeyOf subNameV
  if isTrueV (getField subNode "singleProperty") then
    -- special case: child node is single property
    let value := (asList (getField subNode "propertyList")).getD 0 JSValue.undef
    if isArrV value then
      setField node subName (setField subNode "a" value)
    else
      setField node subName value
  else if name == "Connections" && isStrV subNameV "C" then
    -- drop the first Connection entry (the FBX type) and push the rest
    let array := JSValue.arr ((asList (getField subNode "propertyList")).drop 1)
    let conns :=
      if isUndefV (getField node "connections") then JSValue.arr []
      else getField node "connections"
    let conns2 :=
      match conns with
      | JSValue.arr cs => JSValue.arr (cs ++ [array])
      | c => c
    setField node "connections" conns2
  else if isStrV subNameV "Properties70" then
    -- copy every own key of the subNode onto the parent
    match subNode with
    | JSValue.obj fields => fields.foldl (fun n kv => setField n kv.1 kv.2) node
    | _ => node
  else if name == "Properties70" && isStrV subNameV "P" then
    let pl := asList (getField subNode "propertyList")
    let innerPropName := lclFix (asString (pl.getD 0 JSValue.undef))
    let innerPropType1 := lclFix (asString (pl.getD 1 JSValue.undef))
    let innerPropType2 := pl.getD 2 JSValue.undef
    let innerPropFlag := pl.getD 3 JSValue.undef
    let innerPropValue :=
      if innerPropType1 == "Color" || innerPropType1 == "ColorRGB" ||
          innerPropType1 == "Vector" || innerPropType1 == "Vector3D" ||
          innerPropType1.startsWith "Lcl_" then
        JSValue.arr [pl.getD 4 JSValue.undef, pl.getD 5 JSValue.undef,
          pl.getD 6 JSValue.undef]
      else pl.getD 4 JSValue.undef
    setField node innerPropName (JSValue.obj
      [("type", JSValue.str innerPropType1),
       ("type2", innerPropType2),
       ("flag", innerPropFlag),
       ("value", innerPropValue)])
  else if isUndefV (getField node subName) then
    if isNumV (getField subNode "id") then
      setField node subName
        (JSValue.obj [(jsKeyOf (getField subNode "id"), subNode)])
    else
      setField node subName subNode
  else
    if subName == "PoseNode" then
      let cur := getField node subName
      let curArr := if isArrV cur then cur else JSValue.arr [cur]
      let pushed :=
        match curArr with
        | JSValue.arr l => JSValue.arr (l ++ [subNode])
        | v => v
      setField node subName pushed
    else
      let idKey := jsKeyOf (getField subNode "id")
      let inner := getField node subName
      if isUndefV (getField inner idKey) then
        setField node subName (setField inner idKey subNode)
      else node

/-- Embeds the `singleProperty` computation of `_parseNode`:
`numProperties === 1 && stream.offset === endOffset`. -/
def singlePropertyFlag (numProperties offset endOffset : Nat) : Bool :=
  numProperties == 1 && offset == endOffset

/-- Embeds the tail of `FBXLoader._parseNode` (after the sub-node loop):
attaches the raw `propertyList`, converts a numeric first property to
the STRING field `id` via `id.toString()`, and attaches `attrName`,
`attrType` and `name` when nonempty.  The numeric-to-string rendering
`toString` agrees with JS for the integer ids that occur. -/
def finalizeNode (name : String) (propertyList : List JSValue)
    (node : JSValue) : JSValue :=
  let id := propertyList.getD 0 (JSValue.str "")
  let attrName := propertyList.getD 1 (JSValue.str "")
  let attrType := propertyList.getD 2 (JSValue.str "")
  let n1 := setField node "propertyList" (JSValue.arr propertyList)
  let n2 :=
    match id with
    | JSValue.num q => setField n1 "id" (JSValue.str (toString q))
    | _ => n1
  let n3 := if isStrV attrName "" then n2 else setField n2 "attrName" attrName
  let n4 := if isStrV attrType "" then n3 else setField n3 "attrType" attrType
  if name == "" then n4 else setField n4 "name" (JSValue.str name)

/-- Embeds a JS member access `base[key]` that throws a `TypeError` when
`base` is `undefined`, as `nodes["Objects"]["Geometry"]` does when the
`Objects` node is missing. -/
def getFieldOrThrow (v : JSValue) (key : String) : Except String JSValue :=
  match v with
  | JSValue.undef =>
    Except.error "TypeError: Cannot read properties of undefined"
  | _ => Except.ok (getField v key)

/-- Embeds the geometry-selection tail of `FBXLoader.parse`:
`const geometry = nodes["Objects"]["Geometry"]; if (!geometry) return null;`
where `Except.ok none` models the `null` (no geometry) return and
`Except.ok (some g)` the node handed on to `FBXGeometry`. -/
def parseSelectGeometry (nodes : JSValue) : Except String (Option JSValue) :=
  match getFieldOrThrow (getField nodes "Objects") "Geometry" with
  | Except.error e => Except.error e
  | Except.ok geometry =>
    if truthy geometry then Except.ok (some geometry) else Except.ok none

/-- The 21 bytes of `FBXLoader._Magic`, the string
`Kaydara FBX Binary` followed by two spaces and a NUL byte. -/
def fbxMagic : List Nat :=
  [0x4B, 0x61, 0x79, 0x64, 0x61, 0x72, 0x61, 0x20, 0x46, 0x42, 0x58, 0x20,
   0x42, 0x69, 0x6E, 0x61, 0x72, 0x79, 0x20, 0x20, 0x00]

/-- Embeds `FBXLoader.IsValidFBX(buffer)`, which returns
`buffer.byteLength < Magic.length || buffer.toString("utf-8", 0,
buffer.length) !== Magic`.  The decode covers the WHOLE buffer, not
only a magic-length prefix; since the magic is plain ASCII, the UTF-8
decode of a byte buffer equals the magic string exactly when the bytes
equal the magic bytes (a longer or shorter buffer, or any differing
byte, decodes to a different string), so the string comparison is
modelled as byte-list equality. -/
def isValidFBX (buffer : List Nat) : Bool :=
  decide (buffer.length < fbxMagic.length) || decide (buffer ≠ fbxMagic)

/-- Embeds `FBXLoader._isEndOfContent` over the stream size and current
offset: `(offset + 160 + 16) & ~0xf` with the complement taken as the
32-bit mask `0xFFFFFFF0` (JS bitwise operators act on 32-bit values;
the claims are stated under `offset + 176 < 2 ^ 31`, where this natural
number computation agrees with JS). -/
def isEndOfContent (size offset : Nat) : Bool :=
  if size % 16 == 0 then
    decide (((offset + 160 + 16) &&& 0xFFFFFFF0) ≥ size)
  else
    decide (offset + 160 + 16 ≥ size)

/-! ### Spec-side formulations and concrete inputs used by the claims -/

/-- States the attribute lookup rule in the words of the spec, for
comparison with `getData`: choose a base index by mapping type
(`ByPolygonVertex` the running corner counter, `ByPolygon` the polygon
counter, `ByVertice` the control-point index, `AllSame` the first entry
of `indices`, an unrecognized mapping string behaving like the
`ByPolygonVertex` default); when the reference type is `IndexToDirect`
(and only then; an unrecognized reference string behaves as direct),
replace that index by `indices[index]`; the result is the `dataSize`
contiguous components of `buffer` starting at component
`index * dataSize`. -/
def getDataSpec (polygonVertexIndex polygonIndex vertexIndex : Int)
    (info : IFBXParsedData) : List JSNum :=
  let base : Option Int :=
    if info.mappingType = "ByPolygon" then some polygonIndex
    else if info.mappingType = "ByVertice" then some vertexIndex
    else if info.mappingType = "AllSame" then jsGetI info.indices 0
    else some polygonVertexIndex
  let final : Option Int :=
    if info.referenceType = "IndexToDirect" then base.bind (jsGetI info.indices)
    else base
  match final with
  | some i => (List.range info.dataSize).map
      (fun (j : Nat) => jsGetQ info.buffer (i * (info.dataSize : Int) + (j : Int)))
  | none => []

/-- Lists the nine position slots `_genFace` pushes for the triangle at
loop counter `i`: corner 0, then corner `i - 1`, then corner `i`, each
corner contributing its components in source order first, third,
second. -/
def triPositions (vertexPositions : List ℚ) (facePositionIndexes : List Int)
    (i : Nat) : List JSNum :=
  let fv := faceVertexAt vertexPositions facePositionIndexes
  [fv 0, fv 2, fv 1,
   fv ((i - 1) * 3), fv ((i - 1) * 3 + 2), fv ((i - 1) * 3 + 1),
   fv (i * 3), fv (i * 3 + 2), fv (i * 3 + 1)]

/-- Lists the nine normal slots pushed for the triangle at counter `i`:
corners 0, `i - 1`, `i`, components in order first, third, second. -/
def triNormals (faceNormals : List JSNum) (i : Nat) : List JSNum :=
  [jsGetN faceNormals 0, jsGetN faceNormals 2, jsGetN faceNormals 1,
   jsGetN faceNormals ((i - 1) * 3), jsGetN faceNormals ((i - 1) * 3 + 2),
   jsGetN faceNormals ((i - 1) * 3 + 1),
   jsGetN faceNormals (i * 3), jsGetN faceNormals (i * 3 + 2),
   jsGetN faceNormals (i * 3 + 1)]

/-- Lists the six uv slots pushed for the triangle at counter `i`:
corners 0, `i - 1`, `i`, components in order. -/
def triUVs (faceUVs : List JSNum) (i : Nat) : List JSNum :=
  [jsGetN faceUVs 0, jsGetN faceUVs 1,
   jsGetN faceUVs ((i - 1) * 2), jsGetN faceUVs ((i - 1) * 2 + 1),
   jsGetN faceUVs (i * 2), jsGetN faceUVs (i * 2 + 1)]

/-- Lists the twelve color slots pushed for the triangle at counter `i`:
corners 0, `i - 1`, `i`, the latter two read at stride 3 from the
four-slot-per-corner accumulator. -/
def triColors (faceColors : List JSNum) (i : Nat) : List JSNum :=
  [jsGetN faceColors 0, jsGetN faceColors 1,
   jsGetN faceColors 2, jsGetN faceColors 3,
   jsGetN faceColors ((i - 1) * 3), jsGetN faceColors ((i - 1) * 3 + 1),
   jsGetN faceColors ((i - 1) * 3 + 2), jsGetN faceColors ((i - 1) * 3 + 3),
   jsGetN faceColors (i * 3), jsGetN faceColors (i * 3 + 1),
   jsGetN faceColors (i * 3 + 2), jsGetN faceColors (i * 3 + 3)]

/-- A synthetic quad polygon: `PolygonVertexIndex = [0, 1, 3, -3]`
(corners 0, 1, 3, 2) over four known positions
`p0 = (0,1,2)`, `p1 = (10,11,12)`, `p2 = (20,21,22)`,
`p3 = (30,31,32)`, with no normal, uv or color layers. -/
def c1QuadGeo : IFBXGeometryInformations :=
  { vertexPositions := [0, 1, 2, 10, 11, 12, 20, 21, 22, 30, 31, 32]
    vertexIndices := [0, 1, 3, -3]
    normal := none
    uv := none
    colors := none }

/-- The fully empty geometry record (zero indices, positions and
attribute buffers). -/
def emptyGeometryRecord : IFBXGeometry :=
  { positions := [], indices := [], normals := [], uvs := [], colors := [] }

/-- A geometry node with `Vertices` present and non-empty but no
`PolygonVertexIndex` child. -/
def c5Node : GeometryNode :=
  { vertices := some [1, 2, 3]
    polygonVertexIndex := none
    layerElementUV := none
    layerElementColor := none
    layerElementNormal := none }

/-- Sibling child node 1 as `_parseNode` finalizes it: name `Model`,
numeric first property 100 (stored by `finalizeNode` as the string id
"100"), no sub-nodes. -/
def c2Child1 : JSValue :=
  finalizeNode "Model"
    [JSValue.num 100, JSValue.str "A", JSValue.str "Mesh"]
    (JSValue.obj [("singleProperty", JSValue.bool false)])

/-- Sibling child node 2: same name `Model`, numeric id 200. -/
def c2Child2 : JSValue :=
  finalizeNode "Model"
    [JSValue.num 200, JSValue.str "B", JSValue.str "Mesh"]
    (JSValue.obj [("singleProperty", JSValue.bool false)])

/-- Sibling child node 3: same name `Model`, REUSING id 200. -/
def c2Child3 : JSValue :=
  finalizeNode "Model"
    [JSValue.num 200, JSValue.str "C", JSValue.str "Mesh"]
    (JSValue.obj [("singleProperty", JSValue.bool false)])

/-- The parent after the first `Model` child is merged. -/
def c2Parent1 : JSValue := parseSubNode "Objects" (JSValue.obj []) c2Child1

/-- The parent after the second `Model` child is merged. -/
def c2Parent2 : JSValue := parseSubNode "Objects" c2Parent1 c2Child2

/-- The parent after the third `Model` child is merged. -/
def c2Parent3 : JSValue := parseSubNode "Objects" c2Parent2 c2Child3

/-- States the size and alignment invariant of the output buffers with
respect to the layer setup of `geoInfo`: for some vertex count `n`
(a multiple of 3), the index buffer is the identity sequence
`0, ..., n - 1`, the vertex buffer holds `n * 3` slots, and each
attribute buffer holds the full per-vertex component count when its
layer is present and is empty otherwise. -/
def BuffersAligned (geoInfo : IFBXGeometryInformations)
    (b : IFBXBuffers) : Prop :=
  ∃ n : Nat,
    b.index = List.range n ∧
    n % 3 = 0 ∧
    b.vertex.length = n * 3 ∧
    b.normal.length = (if geoInfo.normal.isSome then n * 3 else 0) ∧
    b.uvs.length = (if geoInfo.uv.isSome then n * 2 else 0) ∧
    b.colors.length = (if geoInfo.colors.isSome then n * 4 else 0)

/-- A minimal geometry information record (no faces, no layers), used
as a concrete step input. -/
def c8Geo : IFBXGeometryInformations :=
  { vertexPositions := [], vertexIndices := [], normal := none,
    uv := none, colors := none }

/-! ### Helper lemmas -/

theorem lookupField_setFields_self (fs : List (String × JSValue))
    (key : String) (v : JSValue) :
    lookupField (setFields fs key v) key = v := by
  induction fs with
  | nil => simp [setFields, lookupField]
  | cons kv rest ih =>
    unfold setFields
    by_cases h : kv.1 = key
    · simp [h, lookupField]
    · simp [h, lookupField, ih]

theorem lookupField_setFields_ne (fs : List (String × JSValue))
    (key key2 : String) (v : JSValue) (h : key ≠ key2) :
    lookupField (setFields fs key v) key2 = lookupField fs key2 := by
  induction fs with
  | nil => simp [setFields, lookupField, h]
  | cons kv rest ih =>
    unfold setFields
    by_cases hk : kv.1 = key
    · simp [hk, lookupField, h]
    · simp [hk, lookupField, ih]

theorem getField_setField_self (fs : List (String × JSValue))
    (key : String) (v : JSValue) :
    getField (setField (JSValue.obj fs) key v) key = v := by
  simp [setField, getField, lookupField_setFields_self]

theorem getField_setField_ne (fs : List (String × JSValue))
    (key key2 : String) (v : JSValue) (h : key ≠ key2) :
    getField (setField (JSValue.obj fs) key v) key2 =
      getField (JSValue.obj fs) key2 := by
  simp [setField, getField, lookupField_setFields_ne fs key key2 v h]

/-! ### Claim C3 -/

/-- C3 (failing inputs): `IsValidFBX` evaluated at the two boundary
inputs of the claim.  The claim says a buffer shorter than the 21-byte
magic is NOT valid and a buffer whose first 21 bytes are the magic IS
valid; the code instead reports the empty buffer valid (`true`) and the
exact-magic buffer not valid (`false`). -/
theorem c3_isValidFBX_failing_inputs :
    isValidFBX [] = true ∧ isValidFBX fbxMagic = false := by decide

/-! ### Claim C10 -/

/-- C10: `IsValidFBX` compares the UTF-8 decoding of the entire buffer
against the magic string, so it returns `false` exactly for the buffer
whose whole content is the magic, and returns `true` for every other
buffer — in particular for every buffer shorter than the magic and for
every buffer longer than the magic (such as every real FBX file). -/
theorem c10_isValidFBX_whole_buffer (buffer : List Nat) :
    (isValidFBX buffer = false ↔ buffer = fbxMagic) ∧
    (buffer.length < fbxMagic.length → isValidFBX buffer = true) ∧
    (fbxMagic.length < buffer.length → isValidFBX buffer = true) := by
  refine ⟨⟨fun h => ?_, fun h => ?_⟩, fun h => ?_, fun h => ?_⟩
  · by_contra hne
    simp [isValidFBX, hne] at h
  · subst h
    decide
  · simp [isValidFBX]
    exact Or.inl h
  · simp [isValidFBX]
    refine Or.inr fun he => ?_
    rw [he] at h
    exact lt_irrefl _ h

/-- Witness for C10 at the 22-byte buffer made of the magic plus one
extra byte: it is reported valid. -/
theorem c10_isValidFBX_whole_buffer_witness :
    isValidFBX (fbxMagic ++ [0]) = true :=
  (c10_isValidFBX_whole_buffer (fbxMagic ++ [0])).2.2 (by decide)

/-! ### Claim C4 -/

/-- C4 (counterexample): a parsed buffer whose top-level record map
lacks an `Objects` node makes the geometry-selection tail of `parse`
throw a TypeError (reading `["Geometry"]` on `undefined`) instead of
returning the empty no-geometry result the claim describes. -/
theorem c4_missing_objects_throws :
    parseSelectGeometry (JSValue.obj []) =
      Except.error "TypeError: Cannot read properties of undefined" := rfl

/-- C4 (amended): when the top-level map DOES have an `Objects` node
but that node has no (truthy) `Geometry` child, `parse` returns the
empty no-geometry result and raises no error; when `Objects` itself is
missing, the member access throws a TypeError instead. -/
theorem c4_no_geometry_is_empty_result (nodes : JSValue)
    (hobj : getField nodes "Objects" ≠ JSValue.undef)
    (hgeo : truthy (getField (getField nodes "Objects") "Geometry") = false) :
    parseSelectGeometry nodes = Except.ok none := by
  unfold parseSelectGeometry getFieldOrThrow
  cases h : getField nodes "Objects" <;>
    first
    | exact absurd h hobj
    | (rw [h] at hgeo; simp [h, hgeo])

/-- Witness for C4 at a concrete map whose `Objects` node is an empty
object: the result is the empty no-geometry outcome. -/
theorem c4_no_geometry_is_empty_result_witness :
    parseSelectGeometry (JSValue.obj [("Objects", JSValue.obj [])]) =
      Except.ok none :=
  c4_no_geometry_is_empty_result (JSValue.obj [("Objects", JSValue.obj [])])
    (fun h => JSValue.noConfusion h) rfl

/-! ### Claim C5 -/

/-- C5 (counterexample): at the node with `Vertices = [1, 2, 3]` and no
`PolygonVertexIndex`, the reconstructor (error behavior explicit)
returns a record with EMPTY positions — the non-empty vertices are NOT
passed through, contrary to the claimed positions `[1, 2, 3]`. -/
theorem c5_positions_not_passed_through :
    genGeomeetryE c5Node = Except.ok emptyGeometryRecord ∧
    c5Node.vertices = some [1, 2, 3] ∧
    ([some 1, some 2, some 3] : List JSNum) ≠ [] :=
  ⟨rfl, rfl, by decide⟩

/-- C5 (amended): a geometry node whose `Vertices` array is present and
non-empty but whose `PolygonVertexIndex` is absent produces, without
raising, a record whose indices AND positions (and every attribute
buffer) have zero length — the vertices are not passed through —
PROVIDED its uv/color layer children do not hit the malformed-index
TypeError path; a `LayerElementUV` or `LayerElementColor` child with
`IndexToDirect` reference but missing `UVIndex`/`ColorIndex` child
makes the reconstructor throw that TypeError instead (uv first, per the
source evaluation order). -/
theorem c5_no_polygon_vertex_index_empty_record (vp : List ℚ)
    (uv col nor : Option LayerElementNode) (_hvp : vp ≠ []) :
    (∀ u c, parseUVsE uv = Except.ok u → parseColorsE col = Except.ok c →
      genGeomeetryE
        { vertices := some vp
          polygonVertexIndex := none
          layerElementUV := uv
          layerElementColor := col
          layerElementNormal := nor } = Except.ok emptyGeometryRecord) ∧
    (∀ e, parseUVsE uv = Except.error e →
      genGeomeetryE
        { vertices := some vp
          polygonVertexIndex := none
          layerElementUV := uv
          layerElementColor := col
          layerElementNormal := nor } = Except.error e) ∧
    (∀ u e, parseUVsE uv = Except.ok u →
      parseColorsE col = Except.error e →
      genGeomeetryE
        { vertices := some vp
          polygonVertexIndex := none
          layerElementUV := uv
          layerElementColor := col
          layerElementNormal := nor } = Except.error e) := by
  refine ⟨fun u c hu hc => ?_, fun e hu => ?_, fun u e hu hc => ?_⟩
  · simp only [genGeomeetryE, hu, hc]
    rfl
  · simp only [genGeomeetryE, hu]
    rfl
  · simp only [genGeomeetryE, hu, hc]
    rfl

/-- Witness for C5 at the concrete node with vertices `[1, 2, 3]` and
no layer children (so neither layer parse can throw). -/
theorem c5_no_polygon_vertex_index_empty_record_witness :
    genGeomeetryE
      { vertices := some [1, 2, 3]
        polygonVertexIndex := none
        layerElementUV := none
        layerElementColor := none
        layerElementNormal := none } = Except.ok emptyGeometryRecord :=
  (c5_no_polygon_vertex_index_empty_record [1, 2, 3] none none none
    (by decide)).1 none none rfl rfl

/-! ### Claim C9 -/

/-- Helper: the mask `0xFFFFFFF0` keeps exactly bits 4 to 31. -/
theorem testBit_mask16 (i : Nat) :
    (0xFFFFFFF0 : Nat).testBit i = (decide (4 ≤ i) && decide (i < 32)) := by
  by_cases h32 : i < 32
  · interval_cases i <;> decide
  · have h1 : (0xFFFFFFF0 : Nat).testBit i = false :=
      Nat.testBit_lt_two_pow (lt_of_lt_of_le (by norm_num)
        (Nat.pow_le_pow_right (by norm_num) (le_of_not_lt h32)))
    simp [h1, h32]

/-- Helper: for values below `2 ^ 32`, masking with `0xFFFFFFF0` rounds
down to the nearest multiple of 16. -/
theorem land_mask16 (n : Nat) (h : n < 2 ^ 32) :
    n &&& 0xFFFFFFF0 = n - n % 16 := by
  have h16 : n - n % 16 = (n >>> 4) <<< 4 := by
    rw [Nat.shiftRight_eq_div_pow, Nat.shiftLeft_eq]
    omega
  rw [h16]
  apply Nat.eq_of_testBit_eq
  intro i
  rw [Nat.testBit_land, testBit_mask16, Nat.testBit_shiftLeft,
    Nat.testBit_shiftRight]
  by_cases h4 : 4 ≤ i
  · by_cases h32 : i < 32
    · have hi : 4 + (i - 4) = i := by omega
      simp [h4, h32, hi, ge_iff_le]
    · have hbit : n.testBit i = false :=
        Nat.testBit_lt_two_pow (lt_of_lt_of_le h
          (Nat.pow_le_pow_right (by norm_num) (le_of_not_lt h32)))
      have hi : 4 + (i - 4) = i := by omega
      simp [h4, h32, hi, hbit, ge_iff_le]
  · simp [h4, ge_iff_le]

/-- C9: end of content is reached exactly per the claimed rule — when
the stream size is a multiple of 16, once `offset + 176` rounded down
to the nearest multiple of 16 reaches the size; otherwise once
`offset + 176` itself reaches the size (stated under the 32-bit range
assumption on which the JS bitwise computation is faithful). -/
theorem c9_end_of_content_boundary (size offset : Nat)
    (h : offset + 176 < 2 ^ 31) :
    isEndOfContent size offset = true ↔
      (if size % 16 = 0 then
        size ≤ (offset + 176) - (offset + 176) % 16
       else size ≤ offset + 176) := by
  have hsum : offset + 160 + 16 = offset + 176 := by omega
  have hm : (offset + 160 + 16) &&& 0xFFFFFFF0 =
      (offset + 176) - (offset + 176) % 16 := by
    rw [hsum]
    exact land_mask16 _ (lt_trans h (by norm_num))
  unfold isEndOfContent
  by_cases h16 : size % 16 = 0
  · simp [h16, hm, ge_iff_le]
  · simp [h16, hsum, ge_iff_le]

/-- Witness for C9 at size 320 (a multiple of 16) and offset 100. -/
theorem c9_end_of_content_boundary_witness :
    isEndOfContent 320 100 = true ↔
      (if 320 % 16 = 0 then
        320 ≤ (100 + 176) - (100 + 176) % 16
       else 320 ≤ 100 + 176) :=
  c9_end_of_content_boundary 320 100 (by norm_num)

/-! ### Claim C7 -/

/-- C7: a child with exactly one property and cursor position equal to
its end offset (`singleProperty` true) collapses onto the parent: a
non-array single property value is assigned directly as
`parent[child.name]` (a scalar-valued field, not a nested object),
while an array value stores the child node itself, the array remaining
reachable through the stored child both as its field `a` and as the
first entry of its `propertyList`. -/
theorem c7_single_property_collapse (name childName : String)
    (parent : JSValue) (fs : List (String × JSValue)) (pl : List JSValue)
    (endOffset : Nat)
    (hsp : lookupField fs "singleProperty" =
      JSValue.bool (singlePropertyFlag 1 endOffset endOffset))
    (hpl : lookupField fs "propertyList" = JSValue.arr pl)
    (hnm : lookupField fs "name" = JSValue.str childName) :
    (isArrV (pl.getD 0 JSValue.undef) = false →
      parseSubNode name parent (JSValue.obj fs) =
        setField parent childName (pl.getD 0 JSValue.undef)) ∧
    (∀ xs, pl.getD 0 JSValue.undef = JSValue.arr xs →
      parseSubNode name parent (JSValue.obj fs) =
        setField parent childName
          (setField (JSValue.obj fs) "a" (JSValue.arr xs)) ∧
      getField (setField (JSValue.obj fs) "a" (JSValue.arr xs)) "a" =
        JSValue.arr xs ∧
      getField (setField (JSValue.obj fs) "a" (JSValue.arr xs))
        "propertyList" = JSValue.arr pl) := by
  have hflag : singlePropertyFlag 1 endOffset endOffset = true := by
    simp [singlePropertyFlag]
  rw [hflag] at hsp
  constructor
  · intro hv
    simp only [parseSubNode, getField, hsp, hnm, hpl, isTrueV, jsKeyOf,
      asList, eq_self_iff_true, if_true, hv, Bool.false_eq_true, if_false]
  · intro xs hx
    refine ⟨?_, getField_setField_self fs "a" (JSValue.arr xs), ?_⟩
    · simp only [parseSubNode, getField, hsp, hnm, hpl, isTrueV, jsKeyOf,
        asList, eq_self_iff_true, if_true, hx, isArrV]
    · rw [getField_setField_ne fs "a" "propertyList" (JSValue.arr xs)
        (by decide)]
      simp [getField, hpl]

/-- Witness for C7 at a concrete leaf child with the single scalar
property 5 under name `Count`: the parent gains a direct scalar field. -/
theorem c7_single_property_collapse_witness :
    parseSubNode "Doc" (JSValue.obj [])
      (JSValue.obj
        [("singleProperty", JSValue.bool true),
         ("propertyList", JSValue.arr [JSValue.num 5]),
         ("name", JSValue.str "Count")]) =
      setField (JSValue.obj []) "Count"
        ([JSValue.num 5].getD 0 JSValue.undef) :=
  (c7_single_property_collapse "Doc" "Count" (JSValue.obj [])
    [("singleProperty", JSValue.bool true),
     ("propertyList", JSValue.arr [JSValue.num 5]),
     ("name", JSValue.str "Count")]
    [JSValue.num 5] 0 rfl rfl rfl).1 rfl

/-! ### Claim C2 -/

/-- C2 (evaluation of the code at the failing input): `_parseNode`
stores the numeric first property as the STRING field `id`
(`id.toString()`), so the `typeof subNode.id === "number"` guard of
`_parseSubNode` never fires.  The first `Model` sibling is therefore
stored directly at `parent["Model"]` (no one-entry indexed map is ever
created); the second sibling (id 200) is grafted onto the FIRST CHILD
under key "200"; the first sibling is not retrievable under its own id
"100"; and a third sibling reusing id "200" is dropped. -/
theorem c2_sibling_merge_evaluation :
    getField c2Child1 "id" = JSValue.str "100" ∧
    isNumV (getField c2Child1 "id") = false ∧
    getField c2Parent1 "Model" = c2Child1 ∧
    getField (getField c2Parent2 "Model") "100" = JSValue.undef ∧
    getField (getField c2Parent2 "Model") "200" = c2Child2 ∧
    getField (getField c2Parent3 "Model") "200" = c2Child2 :=
  ⟨rfl, rfl, rfl, rfl, rfl, rfl⟩

/-! ### Claim C8 -/

theorem sliceLoop_eq_range_map (b : List ℚ) (n : Nat) : ∀ i : Int,
    sliceLoop b i n =
      (List.range n).map (fun (j : Nat) => jsGetQ b (i + (j : Int))) := by
  induction n with
  | zero => intro i; simp [sliceLoop]
  | succ n ih =>
    intro i
    rw [sliceLoop, ih (i + 1), List.range_succ_eq_map, List.map_cons,
      List.map_map]
    congr 1
    · simp
    · congr 1
      funext j
      simp only [Function.comp_apply]
      congr 1
      omega

theorem slice_at_dataSize (b : List ℚ) (f : Int) (ds : Nat) :
    slice b f (f + (ds : Int)) =
      (List.range ds).map (fun (j : Nat) => jsGetQ b (f + (j : Int))) := by
  unfold slice
  have h : (f + (ds : Int) - f).toNat = ds := by omega
  rw [h, sliceLoop_eq_range_map]

theorem getData_final_eq (ind : List Int) (b : List ℚ) (ds : Nat)
    (rt : String) (base : Option Int) :
    (match
      (if rt = "IndexToDirect" then
        match base with
        | some i => jsGetI ind i
        | none => none
       else base) with
     | some i => slice b (i * (ds : Int)) (i * (ds : Int) + (ds : Int))
     | none => []) =
    (match (if rt = "IndexToDirect" then base.bind (jsGetI ind) else base) with
     | some i => (List.range ds).map
        (fun (j : Nat) => jsGetQ b (i * (ds : Int) + (j : Int)))
     | none => []) := by
  have hb : (match base with
      | some i => jsGetI ind i
      | none => none) = base.bind (jsGetI ind) := by
    cases base <;> rfl
  rw [hb]
  cases (if rt = "IndexToDirect" then base.bind (jsGetI ind) else base) with
  | none => rfl
  | some i => exact slice_at_dataSize b (i * (ds : Int)) ds

theorem getData_base_eq (pvi pi vi : Int) (info : IFBXParsedData) :
    (if info.mappingType = "ByPolygonVertex" then some pvi
     else if info.mappingType = "ByPolygon" then some pi
     else if info.mappingType = "ByVertice" then some vi
     else if info.mappingType = "AllSame" then jsGetI info.indices 0
     else some pvi) =
    (if info.mappingType = "ByPolygon" then some pi
     else if info.mappingType = "ByVertice" then some vi
     else if info.mappingType = "AllSame" then jsGetI info.indices 0
     else some pvi) := by
  by_cases h1 : info.mappingType = "ByPolygonVertex"
  · rw [if_pos h1, h1, if_neg (by decide), if_neg (by decide),
      if_neg (by decide)]
  · rw [if_neg h1]

/-- C8: the attribute lookup of `_getData` follows exactly the claimed
rule — base index by mapping type (`ByPolygonVertex` the running corner
counter, `ByPolygon` the polygon counter, `ByVertice` the control-point
index, `AllSame` `indices[0]`), replacement through `indices` exactly
when the reference type is `IndexToDirect`, result the `dataSize`
contiguous components starting at `index * dataSize`, and any
unrecognized mapping or reference string silently behaving as the
`ByPolygonVertex`/direct default — and the polygon counter passed to it
by `_genBuffers` increments exactly at face-terminating (negative)
corners, i.e. only after a full face. -/
theorem c8_attribute_lookup :
    (∀ (pvi pi vi : Int) (info : IFBXParsedData),
      getData pvi pi vi info = getDataSpec pvi pi vi info) ∧
    (∀ (geoInfo : IFBXGeometryInformations) (st : GenBuffersState)
        (k : Nat) (v : Int), 0 ≤ v →
      (genBuffersStep geoInfo st k v).polygonIndex = st.polygonIndex) ∧
    (∀ (geoInfo : IFBXGeometryInformations) (st : GenBuffersState)
        (k : Nat) (v : Int), v < 0 →
      (genBuffersStep geoInfo st k v).polygonIndex =
        st.polygonIndex + 1) := by
  refine ⟨fun pvi pi vi info => ?_, fun g st k v hv => ?_,
    fun g st k v hv => ?_⟩
  · simp only [getData, getDataSpec]
    rw [getData_base_eq]
    exact getData_final_eq info.indices info.buffer info.dataSize
      info.referenceType _
  · have hneg : ¬(v < 0) := not_lt.mpr hv
    simp [genBuffersStep, hneg]
  · simp [genBuffersStep, hv]

/-- Witness for C8 applying the polygon-counter parts at a concrete
step state: a nonnegative corner keeps the counter, a negative
(face-terminating) corner increments it. -/
theorem c8_attribute_lookup_witness :
    (genBuffersStep c8Geo initGenBuffersState 0 5).polygonIndex =
      initGenBuffersState.polygonIndex ∧
    (genBuffersStep c8Geo initGenBuffersState 0 (-3)).polygonIndex =
      initGenBuffersState.polygonIndex + 1 :=
  ⟨c8_attribute_lookup.2.1 c8Geo initGenBuffersState 0 5 (by decide),
   c8_attribute_lookup.2.2 c8Geo initGenBuffersState 0 (-3) (by decide)⟩

/-! ### Claim C1 -/

theorem genFaceStep_vertex (g : IFBXGeometryInformations) (fpi : List Int)
    (fN fU fC : List JSNum) (b : IFBXBuffers) (x : Nat) :
    (genFaceStep g fpi fN fU fC b x).vertex =
      b.vertex ++ triPositions g.vertexPositions fpi x := rfl

theorem genFaceStep_normal (g : IFBXGeometryInformations) (fpi : List Int)
    (fN fU fC : List JSNum) (b : IFBXBuffers) (x : Nat) :
    (genFaceStep g fpi fN fU fC b x).normal =
      b.normal ++ (if g.normal.isSome then triNormals fN x else []) := by
  cases hn : g.normal <;> simp [genFaceStep, triNormals, hn]

theorem genFaceStep_uvs (g : IFBXGeometryInformations) (fpi : List Int)
    (fN fU fC : List JSNum) (b : IFBXBuffers) (x : Nat) :
    (genFaceStep g fpi fN fU fC b x).uvs =
      b.uvs ++ (if g.uv.isSome then triUVs fU x else []) := by
  cases hu : g.uv <;> simp [genFaceStep, triUVs, hu]

theorem genFaceStep_colors (g : IFBXGeometryInformations) (fpi : List Int)
    (fN fU fC : List JSNum) (b : IFBXBuffers) (x : Nat) :
    (genFaceStep g fpi fN fU fC b x).colors =
      b.colors ++ (if g.colors.isSome then triColors fC x else []) := by
  cases hc : g.colors <;> simp [genFaceStep, triColors, hc]

theorem genFaceStep_index (g : IFBXGeometryInformations) (fpi : List Int)
    (fN fU fC : List JSNum) (b : IFBXBuffers) (x : Nat) :
    (genFaceStep g fpi fN fU fC b x).index =
      b.index ++ [b.index.length, b.index.length + 1, b.index.length + 2] :=
  rfl

theorem genFace_vertex_append (g : IFBXGeometryInformations)
    (fpi : List Int) (fN fU fC : List JSNum) (l : List Nat) :
    ∀ b : IFBXBuffers,
      (l.foldl (genFaceStep g fpi fN fU fC) b).vertex =
        b.vertex ++ l.flatMap (triPositions g.vertexPositions fpi) := by
  induction l with
  | nil => intro b; simp
  | cons x xs ih =>
    intro b
    rw [List.foldl_cons, ih, genFaceStep_vertex, List.flatMap_cons,
      List.append_assoc]

theorem genFace_normal_append (g : IFBXGeometryInformations)
    (fpi : List Int) (fN fU fC : List JSNum) (l : List Nat) :
    ∀ b : IFBXBuffers,
      (l.foldl (genFaceStep g fpi fN fU fC) b).normal =
        b.normal ++
          (if g.normal.isSome then l.flatMap (triNormals fN) else []) := by
  induction l with
  | nil => intro b; simp
  | cons x xs ih =>
    intro b
    rw [List.foldl_cons, ih, genFaceStep_normal]
    by_cases hn : g.normal.isSome
    · simp [hn, List.flatMap_cons, List.append_assoc]
    · simp [hn]

theorem genFace_uvs_append (g : IFBXGeometryInformations)
    (fpi : List Int) (fN fU fC : List JSNum) (l : List Nat) :
    ∀ b : IFBXBuffers,
      (l.foldl (genFaceStep g fpi fN fU fC) b).uvs =
        b.uvs ++ (if g.uv.isSome then l.flatMap (triUVs fU) else []) := by
  induction l with
  | nil => intro b; simp
  | cons x xs ih =>
    intro b
    rw [List.foldl_cons, ih, genFaceStep_uvs]
    by_cases hu : g.uv.isSome
    · simp [hu, List.flatMap_cons, List.append_assoc]
    · simp [hu]

theorem genFace_colors_append (g : IFBXGeometryInformations)
    (fpi : List Int) (fN fU fC : List JSNum) (l : List Nat) :
    ∀ b : IFBXBuffers,
      (l.foldl (genFaceStep g fpi fN fU fC) b).colors =
        b.colors ++
          (if g.colors.isSome then l.flatMap (triColors fC) else []) := by
  induction l with
  | nil => intro b; simp
  | cons x xs ih =>
    intro b
    rw [List.foldl_cons, ih, genFaceStep_colors]
    by_cases hc : g.colors.isSome
    · simp [hc, List.flatMap_cons, List.append_assoc]
    · simp [hc]

theorem genFace_index_length (g : IFBXGeometryInformations)
    (fpi : List Int) (fN fU fC : List JSNum) (l : List Nat) :
    ∀ b : IFBXBuffers,
      (l.foldl (genFaceStep g fpi fN fU fC) b).index.length =
        b.index.length + 3 * l.length := by
  induction l with
  | nil => intro b; simp
  | cons x xs ih =>
    intro b
    rw [List.foldl_cons, ih, genFaceStep_index]
    simp [List.length_append]
    omega

/-- C1 (counterexample): for the quad `PolygonVertexIndex = [0,1,3,-3]`
over the four known positions of `c1QuadGeo` the claim predicts the
emitted position sequence begins with the components of `pos0`, then
`pos3`, then `pos1` (rule corner 0, corner `i`, corner `i - 1`); the
code instead begins with `pos0`, `pos1`, `pos3` and swaps the second
and third component of every corner. -/
theorem c1_claimed_order_false :
    (genBuffers c1QuadGeo).vertex.take 9 ≠
      [some 0, some 1, some 2, some 30, some 31, some 32,
       some 10, some 11, some 12] := by decide

/-- C1 (amended): for every face of length `faceLength`, `_genFace`
emits exactly `faceLength - 2` triangles, and for each triangle `i`
(`i` from 2 to `faceLength - 1`) the corners are emitted in the order
corner 0, corner `i - 1`, corner `i` — positions and normals emitting
each corner as components first, THIRD, SECOND (a y/z swap), uvs in
plain component order, colors reading the four-slot-per-corner
accumulator at stride 3 — so that for the quad
`PolygonVertexIndex = [0,1,3,-3]` over 4 known positions the emitted
sequence is exactly 2 triangles (6 vertices) beginning with the y/z
swapped components of `pos0`, then `pos1`, then `pos3`. -/
theorem c1_fan_triangulation :
    (∀ (buffers : IFBXBuffers) (geoInfo : IFBXGeometryInformations)
        (facePositionIndexes : List Int)
        (faceNormals faceUVs faceColors : List JSNum) (faceLength : Nat),
      (genFace buffers geoInfo facePositionIndexes faceNormals faceUVs
          faceColors faceLength).vertex =
        buffers.vertex ++ (List.range' 2 (faceLength - 2)).flatMap
          (triPositions geoInfo.vertexPositions facePositionIndexes) ∧
      (genFace buffers geoInfo facePositionIndexes faceNormals faceUVs
          faceColors faceLength).normal =
        buffers.normal ++
          (if geoInfo.normal.isSome then
            (List.range' 2 (faceLength - 2)).flatMap (triNormals faceNormals)
           else []) ∧
      (genFace buffers geoInfo facePositionIndexes faceNormals faceUVs
          faceColors faceLength).uvs =
        buffers.uvs ++
          (if geoInfo.uv.isSome then
            (List.range' 2 (faceLength - 2)).flatMap (triUVs faceUVs)
           else []) ∧
      (genFace buffers geoInfo facePositionIndexes faceNormals faceUVs
          faceColors faceLength).colors =
        buffers.colors ++
          (if geoInfo.colors.isSome then
            (List.range' 2 (faceLength - 2)).flatMap (triColors faceColors)
           else []) ∧
      (genFace buffers geoInfo facePositionIndexes faceNormals faceUVs
          faceColors faceLength).index.length =
        buffers.index.length + 3 * (faceLength - 2)) ∧
    (genBuffers c1QuadGeo).vertex =
      [some 0, some 2, some 1, some 10, some 12, some 11,
       some 30, some 32, some 31,
       some 0, some 2, some 1, some 30, some 32, some 31,
       some 20, some 22, some 21] ∧
    (genBuffers c1QuadGeo).index = [0, 1, 2, 3, 4, 5] := by
  refine ⟨fun b g fpi fN fU fC L => ⟨?_, ?_, ?_, ?_, ?_⟩, by decide,
    by decide⟩
  · exact genFace_vertex_append g fpi fN fU fC (List.range' 2 (L - 2)) b
  · exact genFace_normal_append g fpi fN fU fC (List.range' 2 (L - 2)) b
  · exact genFace_uvs_append g fpi fN fU fC (List.range' 2 (L - 2)) b
  · exact genFace_colors_append g fpi fN fU fC (List.range' 2 (L - 2)) b
  · rw [show (genFace b g fpi fN fU fC L).index.length =
        b.index.length + 3 * (List.range' 2 (L - 2)).length from
      genFace_index_length g fpi fN fU fC (List.range' 2 (L - 2)) b]
    simp [List.length_range']

/-! ### Claim C6 -/

theorem range_add_three (n : Nat) :
    List.range (n + 3) = List.range n ++ [n, n + 1, n + 2] := by
  have h3 : n + 3 = n + 2 + 1 := by omega
  have h2 : n + 2 = n + 1 + 1 := by omega
  rw [h3, List.range_succ, h2, List.range_succ, List.range_succ]
  simp

theorem genFaceStep_aligned (g : IFBXGeometryInformations) (fpi : List Int)
    (fN fU fC : List JSNum) (b : IFBXBuffers) (x : Nat)
    (h : BuffersAligned g b) :
    BuffersAligned g (genFaceStep g fpi fN fU fC b x) := by
  obtain ⟨n, h1, h2, h3, h4, h5, h6⟩ := h
  have hbn : b.index.length = n := by rw [h1]; exact List.length_range n
  refine ⟨n + 3, ?_, by omega, ?_, ?_, ?_, ?_⟩
  · rw [genFaceStep_index, hbn, h1, range_add_three]
  · rw [genFaceStep_vertex]
    simp only [List.length_append, triPositions, List.length_cons,
      List.length_nil]
    omega
  · rw [genFaceStep_normal]
    by_cases hn : g.normal.isSome
    · simp only [hn, if_true] at h4 ⊢
      simp only [List.length_append, triNormals, List.length_cons,
        List.length_nil]
      omega
    · simp only [hn, Bool.false_eq_true, if_false] at h4 ⊢
      simp [h4]
  · rw [genFaceStep_uvs]
    by_cases hu : g.uv.isSome
    · simp only [hu, if_true] at h5 ⊢
      simp only [List.length_append, triUVs, List.length_cons,
        List.length_nil]
      omega
    · simp only [hu, Bool.false_eq_true, if_false] at h5 ⊢
      simp [h5]
  · rw [genFaceStep_colors]
    by_cases hc : g.colors.isSome
    · simp only [hc, if_true] at h6 ⊢
      simp only [List.length_append, triColors, List.length_cons,
        List.length_nil]
      omega
    · simp only [hc, Bool.false_eq_true, if_false] at h6 ⊢
      simp [h6]

theorem foldl_genFaceStep_aligned (g : IFBXGeometryInformations)
    (fpi : List Int) (fN fU fC : List JSNum) (l : List Nat) :
    ∀ b : IFBXBuffers, BuffersAligned g b →
      BuffersAligned g (l.foldl (genFaceStep g fpi fN fU fC) b) := by
  induction l with
  | nil => intro b h; exact h
  | cons x xs ih =>
    intro b h
    exact ih _ (genFaceStep_aligned g fpi fN fU fC b x h)

theorem genBuffersStep_aligned (g : IFBXGeometryInformations)
    (st : GenBuffersState) (k : Nat) (v : Int)
    (h : BuffersAligned g st.buffers) :
    BuffersAligned g (genBuffersStep g st k v).buffers := by
  by_cases hv : v < 0
  · simp only [genBuffersStep, hv, if_true]
    exact foldl_genFaceStep_aligned g _ _ _ _ _ _ h
  · simp only [genBuffersStep, hv, Bool.false_eq_true, if_false]
    exact h

theorem foldl_genBuffersStep_aligned (g : IFBXGeometryInformations)
    (l : List (Nat × Int)) :
    ∀ st : GenBuffersState, BuffersAligned g st.buffers →
      BuffersAligned g
        ((l.foldl (fun st p => genBuffersStep g st p.1 p.2) st).buffers) := by
  induction l with
  | nil => intro st h; exact h
  | cons x xs ih =>
    intro st h
    exact ih _ (genBuffersStep_aligned g st x.1 x.2 h)

theorem genBuffers_aligned (g : IFBXGeometryInformations) :
    BuffersAligned g (genBuffers g) := by
  refine foldl_genBuffersStep_aligned g _ initGenBuffersState ⟨0, ?_⟩
  simp [initGenBuffersState, initBuffers]

/-- C6: every record the reconstructor emits has an index buffer that
is exactly the sequence `0, ..., N - 1` (no index reuse) with `N`
divisible by 3, a position buffer of exactly `N * 3` slots, and normal,
uv and color buffers that are either absent (empty) or hold exactly
`N * 3`, `N * 2` and `N * 4` slots respectively. -/
theorem c6_emitted_record_invariants (node : GeometryNode) :
    (genGeomeetry node).indices =
      List.range (genGeomeetry node).indices.length ∧
    (genGeomeetry node).indices.length % 3 = 0 ∧
    (genGeomeetry node).positions.length =
      (genGeomeetry node).indices.length * 3 ∧
    ((genGeomeetry node).normals = [] ∨
      (genGeomeetry node).normals.length =
        (genGeomeetry node).indices.length * 3) ∧
    ((genGeomeetry node).uvs = [] ∨
      (genGeomeetry node).uvs.length =
        (genGeomeetry node).indices.length * 2) ∧
    ((genGeomeetry node).colors = [] ∨
      (genGeomeetry node).colors.length =
        (genGeomeetry node).indices.length * 4) := by
  obtain ⟨n, h1, h2, h3, h4, h5, h6⟩ :=
    genBuffers_aligned (geometryInformationsOf node)
  have hidx : (genGeomeetry node).indices =
      (genBuffers (geometryInformationsOf node)).index := rfl
  have hpos : (genGeomeetry node).positions =
      (genBuffers (geometryInformationsOf node)).vertex := rfl
  have hnor : (genGeomeetry node).normals =
      (genBuffers (geometryInformationsOf node)).normal := rfl
  have huv : (genGeomeetry node).uvs =
      (genBuffers (geometryInformationsOf node)).uvs := rfl
  have hcol : (genGeomeetry node).colors =
      (genBuffers (geometryInformationsOf node)).colors := rfl
  have hlen : (genGeomeetry node).indices.length = n := by
    rw [hidx, h1]
    exact List.length_range n
  refine ⟨?_, ?_, ?_, ?_, ?_, ?_⟩
  · rw [hidx, h1]
    simp
  · rw [hlen]
    exact h2
  · rw [hpos, hlen, h3]
  · by_cases hn : (geometryInformationsOf node).normal.isSome
    · refine Or.inr ?_
      rw [hnor, hlen, h4]
      simp [hn]
    · refine Or.inl ?_
      rw [hnor]
      simp only [hn, Bool.false_eq_true, if_false] at h4
      exact List.length_eq_zero.mp h4
  · by_cases hu : (geometryInformationsOf node).uv.isSome
    · refine Or.inr ?_
      rw [huv, hlen, h5]
      simp [hu]
    · refine Or.inl ?_
      rw [huv]
      simp only [hu, Bool.false_eq_true, if_false] at h5
      exact List.length_eq_zero.mp h5
  · by_cases hc : (geometryInformationsOf node).colors.isSome
    · refine Or.inr ?_
      rw [hcol, hlen, h6]
      simp [hc]
    · refine Or.inl ?_
      rw [hcol]
      simp only [hc, Bool.false_eq_true, if_false] at h6
      exact List.length_eq_zero.mp h6

end FBXPlugin
